import Mathlib

/-!
Shallow embedding of the Starknet address checker (src/src/lib.rs).

Strings from the Rust side are modelled as lists of Unicode characters
(`List Char`); where the Rust code measures or slices in UTF-8 bytes we
compute byte sizes explicitly with `utf8SizeC` (Rust's `char::len_utf8`).
Field elements of the Stark field are modelled as natural numbers below the
Stark prime.  The JSON-RPC node and the URL parser are external
collaborators; they are modelled as an explicit environment `Env`, where a
node answer may depend on the attempt index of the retry loop querying it.
-/

namespace StarknetAddressChecker

/-- Rust `char::is_ascii_hexdigit` and the regex character class
`[0-9a-fA-F]`: decimal digits, lowercase a-f, uppercase A-F. -/
def isHexDigitChar (c : Char) : Bool :=
  (48 ≤ c.toNat && c.toNat ≤ 57) ||
  (97 ≤ c.toNat && c.toNat ≤ 102) ||
  (65 ≤ c.toNat && c.toNat ≤ 70)

/-- Rust `char::len_utf8`: the number of bytes of the UTF-8 encoding. -/
def utf8SizeC (c : Char) : Nat :=
  if c.toNat ≤ 0x7F then 1
  else if c.toNat ≤ 0x7FF then 2
  else if c.toNat ≤ 0xFFFF then 3
  else 4

/-- Rust `str::len`: the length of the string in UTF-8 bytes. -/
def byteLen (s : List Char) : Nat := (s.map utf8SizeC).sum

/-- The regex `^0x[0-9a-fA-F]{64}$` from `is_valid_starknet_address`,
compiled to a total matcher: the string is `0x` followed by exactly 64
hexadecimal digits. -/
def regexMatch64 (s : List Char) : Bool :=
  match s with
  | c1 :: c2 :: rest => c1 = '0' && c2 = 'x' && rest.length == 64 && rest.all isHexDigitChar
  | _ => false

/-- Rust `str::starts_with("0x")`. -/
def startsWith0x (s : List Char) : Bool :=
  match s with
  | c1 :: c2 :: _ => c1 = '0' && c2 = 'x'
  | _ => false

/-- `is_valid_starknet_address` (src/src/lib.rs lines 242-260): full match of
the 64-digit regex returns the input unchanged; otherwise a 65-byte string
starting with `0x` whose remainder is all ASCII hex digits is left-padded
with one `0` digit and re-checked; everything else is rejected with the
original string. -/
def is_valid_starknet_address (s : List Char) : Bool × List Char :=
  if regexMatch64 s then (true, s)
  else
    match s with
    | c1 :: c2 :: rest =>
      if byteLen (c1 :: c2 :: rest) == 65 && (c1 = '0' && c2 = 'x') && rest.all isHexDigitChar then
        let fixed := '0' :: 'x' :: '0' :: rest
        if regexMatch64 fixed then (true, fixed) else (false, c1 :: c2 :: rest)
      else (false, c1 :: c2 :: rest)
    | s => (false, s)

/-- Rust `&address[2..]` as a fallible byte-indexed slice: `none` models the
panic that occurs when byte index 2 is out of bounds or not on a character
boundary. -/
def byteSlice2 (s : List Char) : Option (List Char) :=
  match s with
  | [] => none
  | c1 :: rest =>
    if utf8SizeC c1 = 1 then
      match rest with
      | [] => none
      | c2 :: rest2 => if utf8SizeC c2 = 1 then some rest2 else none
    else if utf8SizeC c1 = 2 then some rest
    else none

/-- `is_valid_starknet_address` with the byte slice `&address[2..]` taken
fallibly, mirroring the order of the checks in the source exactly: `none`
would be a panic of the Rust code. -/
def is_valid_starknet_address_checked (s : List Char) : Option (Bool × List Char) :=
  if regexMatch64 s then some (true, s)
  else if byteLen s == 65 && startsWith0x s then
    match byteSlice2 s with
    | none => none
    | some rest =>
      if rest.all isHexDigitChar then
        let fixed := '0' :: 'x' :: '0' :: rest
        if regexMatch64 fixed then some (true, fixed) else some (false, s)
      else some (false, s)
  else some (false, s)

/-! ### Field elements and `parse_address` -/

/-- Field elements of the Stark field, as natural numbers below `PRIME`. -/
abbrev Felt := Nat

/-- The Stark prime, the modulus of `FieldElement`. -/
def PRIME : Nat := 2 ^ 251 + 17 * 2 ^ 192 + 1

/-- Numeric value of one hexadecimal digit character. -/
def hexDigitVal (c : Char) : Nat :=
  if 48 ≤ c.toNat && c.toNat ≤ 57 then c.toNat - 48
  else if 97 ≤ c.toNat && c.toNat ≤ 102 then c.toNat - 97 + 10
  else if 65 ≤ c.toNat && c.toNat ≤ 70 then c.toNat - 65 + 10
  else 0

/-- Big-endian value of a string of hexadecimal digits. -/
def hexVal (l : List Char) : Nat := l.foldl (fun acc c => 16 * acc + hexDigitVal c) 0

/-- Rust `str::trim_start_matches("0x")`: remove every leading repetition of
the two characters `0x`. -/
def strip0x : List Char → List Char
  | c1 :: c2 :: rest =>
    if c1 = '0' ∧ c2 = 'x' then strip0x rest else c1 :: c2 :: rest
  | s => s

/-- `FieldElement::from_hex_be` of the starknet crate: strip the `0x`
prefixes, reject more than 64 hex digits or a non-hex character, and reject
a value at or above the Stark prime. -/
def from_hex_be (s : List Char) : Except String Felt :=
  let ds := strip0x s
  if ds.length > 64 then Except.error ("OutOfRange")
  else if ds.all isHexDigitChar then
    if hexVal ds < PRIME then Except.ok (hexVal ds) else Except.error ("OutOfRange")
  else Except.error ("InvalidCharacter")

/-- `parse_address` (src/src/lib.rs lines 272-274): any parse failure is
mapped to the anyhow message `Invalid address format`. -/
def parse_address (s : List Char) : Except String Felt :=
  match from_hex_be s with
  | Except.ok fe => Except.ok fe
  | Except.error _ => Except.error ("Invalid address format")

/-! ### Contract classes and the wallet classifier -/

/-- `ContractClass` of the starknet crate, reduced to the data the checker
reads: the list of external entry-point selectors of the Legacy or the
Sierra variant (`entry_points_by_type.external`, one selector per entry). -/
inductive ContractClass where
  | legacy (ext : List Felt)
  | sierra (ext : List Felt)
deriving DecidableEq, Repr

/-- The selector list extracted from a fetched class by the `match` in
`is_smart_wallet` (src/src/lib.rs lines 76-89): both variants expose the
same logical field. -/
def externalSelectors : ContractClass → List Felt
  | ContractClass.legacy ext => ext
  | ContractClass.sierra ext => ext

/-- Name of the first required entry point. -/
def execName : String := "__execute__"

/-- Name of the second required entry point. -/
def validateName : String := "__validate__"

/-- The `required_selectors` vector of `is_smart_wallet` (lines 91-94).
`get_selector_from_name` is an external hash; it is passed in as `sel`. -/
def required_selectors (sel : String → Felt) : List Felt :=
  [sel execName, sel validateName]

/-- The wallet test of `is_smart_wallet` (lines 96-98): every required
selector is contained in the extracted external selector list. -/
def has_required_selectors (sel : String → Felt) (cc : ContractClass) : Bool :=
  (required_selectors sel).all (fun s => (externalSelectors cc).contains s)

/-! ### The retry gateway -/

/-- One run of the `loop` of `retry_operation` (src/src/lib.rs lines 23-40),
with the operation given as a function of the attempt counter at the moment
it is invoked.  Returns the result, the number of invocations of the
operation, and the list of back-off delays (in seconds) slept between them.
The recursion is driven by explicit fuel; on every call reachable from
`retryGo` the fuel equals `retries + 1 - attempt` and is never exhausted. -/
def retryLoop (op : Nat → Except String α) (retries : Nat) :
    Nat → Nat → Except String α × Nat × List Nat
  | _, 0 => (Except.error ("fuel exhausted"), 0, [])
  | attempt, fuel + 1 =>
    match op attempt with
    | Except.ok result => (Except.ok result, 1, [])
    | Except.error e =>
      if attempt < retries then
        let r := retryLoop op retries (attempt + 1) fuel
        (r.1, r.2.1 + 1, (attempt + 1) :: r.2.2)
      else (Except.error ("Max retries reached: " ++ e), 1, [])

/-- `retry_operation(operation, retries)`: the loop started with
`attempt = 0`. -/
def retry_operation (op : Nat → Except String α) (retries : Nat) :
    Except String α × Nat × List Nat :=
  retryLoop op retries 0 (retries + 1)

/-! ### The pipeline -/

/-- The option struct holding the node endpoint (src/src/lib.rs lines 10-13). -/
structure CheckRpcUrl where
  rpc_url : Option String

/-- The output record of `check_address` (src/src/lib.rs lines 15-21). -/
structure CheckAddressResponse where
  is_valid_address : Bool
  is_smart_wallet : Bool
  is_smart_contract : Bool
  message : String
deriving DecidableEq, Repr

/-- Behaviour of the external JSON-RPC node: the answer to each request may
depend on the attempt index of the retry loop issuing it (index `0` is the
initial attempt); a fixed function of request and attempt models a node that
answers deterministically. -/
structure Node where
  classHashAt : Nat → Felt → Except String Felt
  getClass : Nat → Felt → Except String ContractClass

/-- The external collaborators of the pipeline: the URL parser used by
`get_provider` and the node behind the provider. -/
structure Env where
  urlParses : String → Bool
  node : Node

/-- Observable side effects of one pipeline run: a provider construction
(`get_provider` call) or one network request actually sent. -/
inductive Ev where
  | provider
  | classHash (a : Felt)
  | getCls (h : Felt)
deriving DecidableEq, Repr

/-- `get_provider` (src/src/lib.rs lines 262-270): fails when the endpoint
is absent or when the URL does not parse; the constructed client itself
carries no state of its own in this model. -/
def get_provider (env : Env) (options : CheckRpcUrl) : Except String Unit :=
  match options.rpc_url with
  | none => Except.error ("Missing node URL")
  | some u => if env.urlParses u then Except.ok () else Except.error ("Invalid URL")

/-- The retried class-hash fetch: `retry_operation` over
`provider.get_class_hash_at(Latest, address_fe)` with 3 retries. -/
def retriedClassHash (env : Env) (fe : Felt) : Except String Felt × Nat × List Nat :=
  retry_operation (fun i => env.node.classHashAt i fe) 3

/-- The retried class-definition fetch: `retry_operation` over
`provider.get_class(Latest, class_hash)` with 3 retries. -/
def retriedGetClass (env : Env) (h : Felt) : Except String ContractClass × Nat × List Nat :=
  retry_operation (fun i => env.node.getClass i h) 3

/-- `is_smart_wallet` (src/src/lib.rs lines 45-105), instrumented with the
trace of provider constructions and network requests it performs. -/
def is_smart_wallet (env : Env) (sel : String → Felt) (address : List Char)
    (options : CheckRpcUrl) : Except String Bool × List Ev :=
  match get_provider env options with
  | Except.error e => (Except.error e, [Ev.provider])
  | Except.ok _ =>
    match parse_address address with
    | Except.error e => (Except.error e, [Ev.provider])
    | Except.ok address_fe =>
      let r1 := retriedClassHash env address_fe
      let t1 : List Ev := Ev.provider :: List.replicate r1.2.1 (Ev.classHash address_fe)
      match r1.1 with
      | Except.error e => (Except.error e, t1)
      | Except.ok class_hash =>
        if class_hash = 0 then (Except.ok false, t1)
        else
          let r2 := retriedGetClass env class_hash
          let t2 := t1 ++ List.replicate r2.2.1 (Ev.getCls class_hash)
          match r2.1 with
          | Except.error e => (Except.error e, t2)
          | Except.ok contract_class =>
            (Except.ok (has_required_selectors sel contract_class), t2)

/-- `is_smart_contract` (src/src/lib.rs lines 110-113): the negation of a
fresh `is_smart_wallet` run. -/
def is_smart_contract (env : Env) (sel : String → Felt) (address : List Char)
    (options : CheckRpcUrl) : Except String Bool × List Ev :=
  match is_smart_wallet env sel address options with
  | (Except.ok w, t) => (Except.ok (!w), t)
  | (Except.error e, t) => (Except.error e, t)

/-- Message of the invalid-format outcome (src/src/lib.rs line 183). -/
def invalidMsg : String := "❌ Invalid address format"

/-- Message of the undeployed outcome (src/src/lib.rs line 202). -/
def noContractMsg : String := "❌ No contract at this address"

/-- Message of the wallet outcome (src/src/lib.rs lines 210-211). -/
def walletMsg : String := "🛡️ Is Smart Wallet: ✅ Yes\nYou are interacting with a smart-wallet"

/-- Message of the contract outcome (src/src/lib.rs line 217). -/
def contractMsg : String := "🛡️ Is Smart Wallet: ❌ No\n🛡️ Is Smart Contract: ✅ Yes\nYou are interacting with a smart-contract"

/-- Message of the neither-wallet-nor-contract branch (src/src/lib.rs line 219). -/
def neitherMsg : String := "🛡️ Is Smart Wallet: ❌ No\n🛡️ Is Smart Contract: ❌ No\nThis address is not a smart wallet or smart contract"

/-- `check_address` (src/src/lib.rs lines 174-224), instrumented with the
trace of provider constructions and network requests of the whole run,
including those of the nested `is_smart_wallet` and `is_smart_contract`
calls. -/
def check_address (env : Env) (sel : String → Felt) (address : List Char)
    (options : CheckRpcUrl) : Except String CheckAddressResponse × List Ev :=
  if (is_valid_starknet_address address).1 = false then
    (Except.ok ⟨false, false, false, invalidMsg⟩, [])
  else
    match get_provider env options with
    | Except.error e => (Except.error e, [Ev.provider])
    | Except.ok _ =>
      match parse_address address with
      | Except.error e => (Except.error e, [Ev.provider])
      | Except.ok address_fe =>
        let r1 := retriedClassHash env address_fe
        let t1 : List Ev := Ev.provider :: List.replicate r1.2.1 (Ev.classHash address_fe)
        match r1.1 with
        | Except.error e => (Except.error e, t1)
        | Except.ok class_hash =>
          if class_hash = 0 then
            (Except.ok ⟨false, false, false, noContractMsg⟩, t1)
          else
            match is_smart_wallet env sel address options with
            | (Except.error e, t) => (Except.error e, t1 ++ t)
            | (Except.ok w, t) =>
              if w then (Except.ok ⟨true, true, false, walletMsg⟩, t1 ++ t)
              else
                match is_smart_contract env sel address options with
                | (Except.error e, t') => (Except.error e, t1 ++ t ++ t')
                | (Except.ok c, t') =>
                  if c then (Except.ok ⟨true, false, true, contractMsg⟩, t1 ++ t ++ t')
                  else (Except.ok ⟨false, false, false, neitherMsg⟩, t1 ++ t ++ t')

/-! ### Error observations and concrete fixtures -/

/-- Whether a result is an error. -/
def isErr : Except String α → Bool
  | Except.error _ => true
  | Except.ok _ => false

/-- The class-hash fetch fails on all 4 attempts (1 initial + 3 retries) of
its retry budget. -/
def classHashExhausted (env : Env) (fe : Felt) : Bool :=
  (List.range 4).all fun i => isErr (env.node.classHashAt i fe)

/-- The class-definition fetch fails on all 4 attempts of its retry budget. -/
def getClassExhausted (env : Env) (h : Felt) : Bool :=
  (List.range 4).all fun i => isErr (env.node.getClass i h)

/-- A canonical 66-character address of value 1. -/
def addrOne : List Char := '0' :: 'x' :: (List.replicate 63 '0' ++ ['1'])

/-- A 65-character address (63 hex digits) of value 1. -/
def addrShort : List Char := '0' :: 'x' :: (List.replicate 62 '0' ++ ['1'])

/-- The spec's scenario-B address: `0x` followed by 62 hex digits. -/
def addrBad : List Char :=
  ("0x006a06ca686c6193a3420333405fe6bfb065197d670c645bdc0722a36d8892").toList

/-- A syntactically valid address whose value is at or above the Stark
prime: 64 `f` digits. -/
def addrMax : List Char := '0' :: 'x' :: List.replicate 64 'f'

/-- A concrete selector hash for witnesses: every name maps to 7. -/
def selSeven : String → Felt := fun _ => 7

/-- A concrete endpoint option holding a parsable URL. -/
def optsSome : CheckRpcUrl := ⟨some ("http://node")⟩

/-- A node that deterministically reports class hash 5 everywhere and a
Sierra class exposing selector 7. -/
def envWallet : Env :=
  ⟨fun _ => true, ⟨fun _ _ => Except.ok 5, fun _ _ => Except.ok (ContractClass.sierra [7])⟩⟩

/-- The record produced by a wallet classification. -/
def respWallet : CheckAddressResponse := ⟨true, true, false, walletMsg⟩

/-- A node that deterministically reports class hash 0 everywhere. -/
def envZero : Env :=
  ⟨fun _ => true, ⟨fun _ _ => Except.ok 0, fun _ _ => Except.ok (ContractClass.legacy [])⟩⟩

/-- Decidable equality of results, for evaluating the model on concrete
inputs. -/
instance instDecEqExcept {ε α : Type} [DecidableEq ε] [DecidableEq α] :
    DecidableEq (Except ε α) := fun a b =>
  match a, b with
  | Except.error x, Except.error y =>
    if h : x = y then isTrue (by rw [h])
    else isFalse (by intro hc; injection hc with h2; exact h h2)
  | Except.error _, Except.ok _ => isFalse (by intro hc; exact Except.noConfusion hc)
  | Except.ok _, Except.error _ => isFalse (by intro hc; exact Except.noConfusion hc)
  | Except.ok x, Except.ok y =>
    if h : x = y then isTrue (by rw [h])
    else isFalse (by intro hc; injection hc with h2; exact h h2)

/-! ## General lemmas -/

lemma utf8SizeC_of_hex {c : Char} (h : isHexDigitChar c = true) : utf8SizeC c = 1 := by
  simp only [isHexDigitChar, Bool.or_eq_true, Bool.and_eq_true, decide_eq_true_eq] at h
  have h7 : c.toNat ≤ 0x7F := by rcases h with (h | h) | h <;> omega
  simp [utf8SizeC, h7]

lemma byteLen_of_hex {l : List Char} (h : l.all isHexDigitChar = true) :
    byteLen l = l.length := by
  induction l with
  | nil => rfl
  | cons c t ih =>
    simp only [List.all_cons, Bool.and_eq_true] at h
    simp only [byteLen, List.map_cons, List.sum_cons, List.length_cons] at *
    rw [utf8SizeC_of_hex h.1, ih h.2]
    omega

lemma regexMatch64_true {s : List Char} (h : regexMatch64 s = true) :
    ∃ ds, s = '0' :: 'x' :: ds ∧ ds.length = 64 ∧ ds.all isHexDigitChar = true := by
  rcases s with _ | ⟨c1, _ | ⟨c2, ds⟩⟩
  · simp [regexMatch64] at h
  · simp [regexMatch64] at h
  · simp only [regexMatch64, Bool.and_eq_true, beq_iff_eq, decide_eq_true_eq] at h
    exact ⟨ds, by rw [h.1.1.1, h.1.1.2], h.1.2, h.2⟩

lemma valid_64 {ds : List Char} (hhex : ds.all isHexDigitChar = true)
    (hlen : ds.length = 64) :
    is_valid_starknet_address ('0' :: 'x' :: ds) = (true, '0' :: 'x' :: ds) := by
  have hre : regexMatch64 ('0' :: 'x' :: ds) = true := by
    simp [regexMatch64, hhex, hlen]
  simp [is_valid_starknet_address, hre]

lemma valid_pad {ds : List Char} (hhex : ds.all isHexDigitChar = true)
    (hlen : ds.length = 63) :
    is_valid_starknet_address ('0' :: 'x' :: ds) = (true, '0' :: 'x' :: '0' :: ds) := by
  have hre : regexMatch64 ('0' :: 'x' :: ds) = false := by
    simp [regexMatch64, hlen]
  have hbl : byteLen ('0' :: 'x' :: ds) = 65 := by
    simp only [byteLen, List.map_cons, List.sum_cons]
    have hds : (ds.map utf8SizeC).sum = ds.length := byteLen_of_hex hhex
    rw [hds, hlen, show utf8SizeC '0' = 1 from by decide, show utf8SizeC 'x' = 1 from by decide]
  have hfix : regexMatch64 ('0' :: 'x' :: '0' :: ds) = true := by
    simp [regexMatch64, List.all_cons, hhex, hlen]
    decide
  simp [is_valid_starknet_address, hre, hbl, hhex, hfix]

lemma valid_reject {s : List Char}
    (h : ¬ ∃ ds, s = '0' :: 'x' :: ds ∧ ds.all isHexDigitChar = true ∧
        (ds.length = 64 ∨ ds.length = 63)) :
    is_valid_starknet_address s = (false, s) := by
  have hre : regexMatch64 s = false := by
    cases hr : regexMatch64 s
    · rfl
    · obtain ⟨ds, rfl, h64, hhex⟩ := regexMatch64_true hr
      exact absurd ⟨ds, rfl, hhex, Or.inl h64⟩ h
  rcases s with _ | ⟨c1, _ | ⟨c2, rest⟩⟩
  · simp [is_valid_starknet_address, hre]
  · simp [is_valid_starknet_address, hre]
  · simp only [is_valid_starknet_address, hre, Bool.false_eq_true, if_false]
    have hcond : (byteLen (c1 :: c2 :: rest) == 65 && (c1 = '0' && c2 = 'x') &&
        rest.all isHexDigitChar) = false := by
      cases hc : (byteLen (c1 :: c2 :: rest) == 65 && (c1 = '0' && c2 = 'x') &&
          rest.all isHexDigitChar)
      · rfl
      · exfalso
        simp only [Bool.and_eq_true, beq_iff_eq, decide_eq_true_eq] at hc
        obtain ⟨⟨hbl, h0, hx⟩, hhex⟩ := hc
        subst h0; subst hx
        have h2 : byteLen ('0' :: 'x' :: rest) = 2 + rest.length := by
          simp only [byteLen, List.map_cons, List.sum_cons]
          have := byteLen_of_hex hhex
          simp only [byteLen] at this
          rw [this, show utf8SizeC '0' = 1 from by decide,
            show utf8SizeC 'x' = 1 from by decide]
          omega
        exact absurd ⟨rest, rfl, hhex, Or.inr (by omega)⟩ h
    simp [hcond]

lemma strip0x_hex {l : List Char} (h : l.all isHexDigitChar = true) : strip0x l = l := by
  rcases l with _ | ⟨c1, _ | ⟨c2, rest⟩⟩
  · rfl
  · rfl
  · rw [strip0x, if_neg]
    rintro ⟨h0, hx⟩
    subst hx
    simp [List.all_cons] at h
    exact absurd h.2.1 (by decide)

lemma hexVal_cons_zero (ds : List Char) : hexVal ('0' :: ds) = hexVal ds := by
  have h0 : (16 * 0 + hexDigitVal '0') = 0 := by decide
  simp only [hexVal, List.foldl_cons, h0]

lemma has_required_iff (sel : String → Felt) (cc : ContractClass) :
    has_required_selectors sel cc = true ↔
      sel execName ∈ externalSelectors cc ∧ sel validateName ∈ externalSelectors cc := by
  simp [has_required_selectors, required_selectors, List.all_cons, List.all_nil,
    List.contains, List.elem_iff]

lemma retry3_error_iff (op : Nat → Except String α) :
    isErr (retry_operation op 3).1 = true ↔
      ((List.range 4).all fun i => isErr (op i)) = true := by
  rcases h0 : op 0 with e0 | a0 <;> rcases h1 : op 1 with e1 | a1 <;>
    rcases h2 : op 2 with e2 | a2 <;> rcases h3 : op 3 with e3 | a3 <;>
    simp [retry_operation, retryLoop, h0, h1, h2, h3, isErr, List.range_succ]

/-! ## Claim theorems -/

/-- Claim C1: the wallet classification returns true if and only if both the
selector of the literal name `__execute__` and the selector of
`__validate__` are members of the external entry-point selector list of the
class, identically for the Legacy and the Sierra variants; order and
duplicates in the list are irrelevant, and being a pure function of the
class it is deterministic. -/
theorem wallet_requires_both_selectors (sel : String → Felt) (cc : ContractClass)
    (l m : List Felt) :
    (has_required_selectors sel cc = true ↔
      sel execName ∈ externalSelectors cc ∧ sel validateName ∈ externalSelectors cc)
    ∧ has_required_selectors sel (ContractClass.legacy l)
        = has_required_selectors sel (ContractClass.sierra l)
    ∧ ((∀ x : Felt, x ∈ l ↔ x ∈ m) →
        has_required_selectors sel (ContractClass.legacy l)
          = has_required_selectors sel (ContractClass.legacy m)) := by
  refine ⟨has_required_iff sel cc, rfl, fun hm => ?_⟩
  have h1 := has_required_iff sel (ContractClass.legacy l)
  have h2 := has_required_iff sel (ContractClass.legacy m)
  by_cases hx : sel execName ∈ l ∧ sel validateName ∈ l
  · rw [h1.mpr hx, h2.mpr ⟨(hm _).mp hx.1, (hm _).mp hx.2⟩]
  · have hl : has_required_selectors sel (ContractClass.legacy l) = false := by
      cases hb : has_required_selectors sel (ContractClass.legacy l)
      · rfl
      · exact absurd (h1.mp hb) hx
    have hmm : ¬ (sel execName ∈ m ∧ sel validateName ∈ m) := fun hc =>
      hx ⟨(hm _).mpr hc.1, (hm _).mpr hc.2⟩
    have hr : has_required_selectors sel (ContractClass.legacy m) = false := by
      cases hb : has_required_selectors sel (ContractClass.legacy m)
      · rfl
      · exact absurd (h2.mp hb) hmm
    rw [hl, hr]

/-- Witness for claim C1: concrete lists with the same members in different
multiplicity classify identically. -/
theorem wallet_requires_both_selectors_witness :
    has_required_selectors selSeven (ContractClass.legacy [7])
      = has_required_selectors selSeven (ContractClass.legacy [7, 7]) :=
  (wallet_requires_both_selectors selSeven (ContractClass.legacy []) [7] [7, 7]).2.2
    (by intro x; simp)

/-- Claim C2: `is_valid_starknet_address` returns `(true, input)` for `0x`
plus exactly 64 hex digits, `(true, 0x0 ++ digits)` for `0x` plus exactly 63
hex digits, and `(false, input)` for every other string. -/
theorem normalize_classification (s : List Char) :
    (∀ ds, s = '0' :: 'x' :: ds → ds.all isHexDigitChar = true → ds.length = 64 →
      is_valid_starknet_address s = (true, s))
    ∧ (∀ ds, s = '0' :: 'x' :: ds → ds.all isHexDigitChar = true → ds.length = 63 →
      is_valid_starknet_address s = (true, '0' :: 'x' :: '0' :: ds))
    ∧ ((¬ ∃ ds, s = '0' :: 'x' :: ds ∧ ds.all isHexDigitChar = true ∧
        (ds.length = 64 ∨ ds.length = 63)) →
      is_valid_starknet_address s = (false, s)) := by
  refine ⟨?_, ?_, valid_reject⟩
  · rintro ds rfl hhex hlen
    exact valid_64 hhex hlen
  · rintro ds rfl hhex hlen
    exact valid_pad hhex hlen

/-- Witness for claim C2: a concrete 63-digit input is padded. -/
theorem normalize_classification_witness :
    is_valid_starknet_address addrShort
      = (true, '0' :: 'x' :: '0' :: (List.replicate 62 '0' ++ ['1'])) :=
  (normalize_classification addrShort).2.1 (List.replicate 62 '0' ++ ['1']) rfl
    (by decide) (by decide)

/-- Claim C9: a 65-character input accepted by normalization parses via
`parse_address` to the same field element as its canonical zero-padded
form, so the class-hash lookup of `check_address`, which parses the raw
input, targets the canonical address value. -/
theorem padded_address_same_felt (ds : List Char)
    (hhex : ds.all isHexDigitChar = true) (hlen : ds.length = 63) :
    is_valid_starknet_address ('0' :: 'x' :: ds) = (true, '0' :: 'x' :: '0' :: ds)
    ∧ parse_address ('0' :: 'x' :: ds) = parse_address ('0' :: 'x' :: '0' :: ds) := by
  refine ⟨valid_pad hhex hlen, ?_⟩
  have hall : ('0' :: ds).all isHexDigitChar = true := by
    simp [List.all_cons, hhex, show isHexDigitChar '0' = true from by decide]
  have h1 : strip0x ('0' :: 'x' :: ds) = ds := by
    rw [strip0x, if_pos ⟨rfl, rfl⟩, strip0x_hex hhex]
  have h2 : strip0x ('0' :: 'x' :: '0' :: ds) = '0' :: ds := by
    rw [strip0x, if_pos ⟨rfl, rfl⟩, strip0x_hex hall]
  have hgt1 : ¬ ds.length > 64 := by omega
  have hgt2 : ¬ ('0' :: ds).length > 64 := by simp only [List.length_cons]; omega
  simp only [parse_address, from_hex_be, h1, h2, hhex, hall, if_true, if_neg hgt1,
    if_neg hgt2, hexVal_cons_zero]

/-- Witness for claim C9 at a concrete 63-digit input. -/
theorem padded_address_same_felt_witness :
    is_valid_starknet_address addrShort
      = (true, '0' :: 'x' :: '0' :: (List.replicate 62 '0' ++ ['1']))
    ∧ parse_address addrShort
      = parse_address ('0' :: 'x' :: '0' :: (List.replicate 62 '0' ++ ['1'])) :=
  padded_address_same_felt (List.replicate 62 '0' ++ ['1']) (by decide) (by decide)

/-- Claim C10: `is_valid_starknet_address` terminates and returns a pair for
every input without panicking: the fallible-slice version, in which the byte
slice at index 2 returns `none` off a character boundary or out of bounds,
always returns `some` of the value of the total function.  The fixed regex
is modelled as the total matcher `regexMatch64`. -/
theorem normalize_total_no_panic (s : List Char) :
    is_valid_starknet_address_checked s = some (is_valid_starknet_address s) := by
  by_cases hre : regexMatch64 s = true
  · simp [is_valid_starknet_address_checked, is_valid_starknet_address, hre]
  · have hre' : regexMatch64 s = false := by
      cases h : regexMatch64 s
      · rfl
      · exact absurd h hre
    rcases s with _ | ⟨c1, _ | ⟨c2, rest⟩⟩
    · simp [is_valid_starknet_address_checked, is_valid_starknet_address, hre', startsWith0x]
    · simp [is_valid_starknet_address_checked, is_valid_starknet_address, hre', startsWith0x]
    · by_cases h0 : c1 = '0' ∧ c2 = 'x'
      · obtain ⟨rfl, rfl⟩ := h0
        by_cases hbl : byteLen ('0' :: 'x' :: rest) = 65
        · simp only [is_valid_starknet_address_checked, is_valid_starknet_address, hre',
            startsWith0x, hbl, byteSlice2, show utf8SizeC '0' = 1 from by decide,
            show utf8SizeC 'x' = 1 from by decide, beq_self_eq_true, Bool.and_true,
            Bool.true_and, decide_True, if_true, if_false, Bool.false_eq_true, reduceIte]
          simp
          split_ifs
          all_goals rfl
        · simp [is_valid_starknet_address_checked, is_valid_starknet_address, hre',
            startsWith0x, hbl]
      · have hsw : (decide (c1 = '0') && decide (c2 = 'x')) = false := by
          by_cases h1 : c1 = '0' <;> by_cases h2 : c2 = 'x' <;>
            simp [h1, h2] <;> exact h0 ⟨h1, h2⟩
        simp only [is_valid_starknet_address_checked, is_valid_starknet_address, hre',
          startsWith0x, hsw, Bool.and_false, Bool.false_eq_true, if_false]
        simp [hsw]

/-- Claim C6: an operation that fails on every invocation, retried with
`retries = 3`, is invoked exactly 4 times (1 initial attempt + 3 retries),
with back-off delays of 1, 2 and 3 time units before the three
re-invocations, and the final outcome is a terminal error wrapping the last
underlying error. -/
theorem retry_exhausts_after_four_attempts {β : Type} (err : Nat → String) :
    retry_operation (fun i => (Except.error (err i) : Except String β)) 3
      = (Except.error ("Max retries reached: " ++ err 3), 4, [1, 2, 3]) := by
  rfl

/-- Amended claim C5: a string that fails validation makes `check_address`
return Ok with the all-false record and the message
`❌ Invalid address format` (the code prepends `❌ ` to the message the claim
quotes), with an empty event trace: no provider construction and no network
request happens. -/
theorem invalid_address_no_network (env : Env) (sel : String → Felt)
    (addr : List Char) (opts : CheckRpcUrl)
    (h : (is_valid_starknet_address addr).1 = false) :
    check_address env sel addr opts
      = (Except.ok ⟨false, false, false, invalidMsg⟩, ([] : List Ev)) := by
  simp [check_address, h]

/-- Witness for amended claim C5 at the spec's scenario-B address. -/
theorem invalid_address_no_network_witness :
    check_address envZero selSeven addrBad optsSome
      = (Except.ok ⟨false, false, false, invalidMsg⟩, ([] : List Ev)) :=
  invalid_address_no_network envZero selSeven addrBad optsSome (by decide)

/-- Counterexample to claim C5 as stated: on the scenario-B address the
message of the returned record is `❌ Invalid address format`, not the
claimed `Invalid address format`. -/
theorem invalid_format_message_counterexample :
    (check_address envZero selSeven addrBad optsSome).1
      = Except.ok ⟨false, false, false, ("❌ Invalid address format")⟩
    ∧ ("❌ Invalid address format") ≠ ("Invalid address format") := by
  constructor
  · rfl
  · decide

/-- Amended claim C4: when the retried class-hash fetch answers zero,
`check_address` returns Ok with the all-false record and the message
`❌ No contract at this address` (the code prepends `❌ ` to the message the
claim quotes), and the trace shows no class-definition fetch. -/
theorem zero_class_hash_result (env : Env) (sel : String → Felt)
    (addr : List Char) (opts : CheckRpcUrl) (fe : Felt)
    (hv : (is_valid_starknet_address addr).1 = true)
    (hp : get_provider env opts = Except.ok ())
    (hf : parse_address addr = Except.ok fe)
    (hz : env.node.classHashAt 0 fe = Except.ok 0) :
    check_address env sel addr opts
      = (Except.ok ⟨false, false, false, noContractMsg⟩,
         [Ev.provider, Ev.classHash fe]) := by
  simp [check_address, hv, hp, hf, retriedClassHash, retry_operation, retryLoop, hz]

/-- Witness for amended claim C4 at concrete inputs. -/
theorem zero_class_hash_result_witness :
    check_address envZero selSeven addrOne optsSome
      = (Except.ok ⟨false, false, false, noContractMsg⟩,
         [Ev.provider, Ev.classHash 1]) :=
  zero_class_hash_result envZero selSeven addrOne optsSome 1 (by decide) rfl
    (by decide) rfl

/-- Counterexample to claim C4 as stated: on a deployed-nowhere address the
message of the returned record is `❌ No contract at this address`, not the
claimed `No contract at this address`. -/
theorem no_contract_message_counterexample :
    (check_address envZero selSeven addrOne optsSome).1
      = Except.ok ⟨false, false, false, ("❌ No contract at this address")⟩
    ∧ ("❌ No contract at this address") ≠ ("No contract at this address") := by
  constructor
  · rfl
  · decide

/-- Amended claim C3: on a valid address and a deterministic provider whose
class-hash lookup yields a non-zero value, the pipeline runs sequentially
(normalize, then class-hash fetch, then class-definition fetch, then
classify), but the class-hash fetch is issued twice — once by
`check_address` and once more inside the nested `is_smart_wallet` — and in
the non-wallet case a further nested `is_smart_contract` run issues a third
class-hash fetch and a second class-definition fetch; each fetch goes
through the retry gateway with budget 3. -/
theorem pipeline_trace_shape (env : Env) (sel : String → Felt)
    (addr : List Char) (opts : CheckRpcUrl) (fe h : Felt) (cc : ContractClass)
    (hv : (is_valid_starknet_address addr).1 = true)
    (hp : get_provider env opts = Except.ok ())
    (hf : parse_address addr = Except.ok fe)
    (hch : env.node.classHashAt 0 fe = Except.ok h)
    (hnz : h ≠ 0)
    (hgc : env.node.getClass 0 h = Except.ok cc) :
    check_address env sel addr opts
      = (if has_required_selectors sel cc then
          (Except.ok ⟨true, true, false, walletMsg⟩,
           [Ev.provider, Ev.classHash fe, Ev.provider, Ev.classHash fe, Ev.getCls h])
         else
          (Except.ok ⟨true, false, true, contractMsg⟩,
           [Ev.provider, Ev.classHash fe, Ev.provider, Ev.classHash fe, Ev.getCls h,
            Ev.provider, Ev.classHash fe, Ev.getCls h])) := by
  cases hw : has_required_selectors sel cc <;>
    simp [check_address, is_smart_wallet, is_smart_contract, retriedClassHash,
      retriedGetClass, retry_operation, retryLoop, hv, hp, hf, hch, hnz, hgc, hw]

/-- Witness for amended claim C3 at concrete inputs. -/
theorem pipeline_trace_shape_witness :
    check_address envWallet selSeven addrOne optsSome
      = (if has_required_selectors selSeven (ContractClass.sierra [7]) then
          (Except.ok ⟨true, true, false, walletMsg⟩,
           [Ev.provider, Ev.classHash 1, Ev.provider, Ev.classHash 1, Ev.getCls 5])
         else
          (Except.ok ⟨true, false, true, contractMsg⟩,
           [Ev.provider, Ev.classHash 1, Ev.provider, Ev.classHash 1, Ev.getCls 5,
            Ev.provider, Ev.classHash 1, Ev.getCls 5])) :=
  pipeline_trace_shape envWallet selSeven addrOne optsSome 1 5
    (ContractClass.sierra [7]) (by decide) rfl (by decide) rfl (by decide) rfl

/-- Counterexample to claim C3 as stated: on a concrete deterministic
wallet-classifying run the trace contains the class-hash fetch twice, not
exactly once. -/
theorem pipeline_single_fetch_counterexample :
    (check_address envWallet selSeven addrOne optsSome).2
      = [Ev.provider, Ev.classHash 1, Ev.provider, Ev.classHash 1, Ev.getCls 5]
    ∧ ((check_address envWallet selSeven addrOne optsSome).2.count (Ev.classHash 1)) ≠ 1 := by
  constructor
  · rfl
  · decide

/-- Claim C7: every Ok record produced by `check_address` against a
deterministic provider carries one of the boolean triples
(false, false, false), (true, true, false) or (true, false, true), and the
branch reporting neither wallet nor contract is never taken. -/
theorem classification_triple_invariant (env : Env) (sel : String → Felt)
    (addr : List Char) (opts : CheckRpcUrl) (r : CheckAddressResponse) (t : List Ev)
    (hdet1 : ∀ i fe, env.node.classHashAt i fe = env.node.classHashAt 0 fe)
    (hdet2 : ∀ i h, env.node.getClass i h = env.node.getClass 0 h)
    (hok : check_address env sel addr opts = (Except.ok r, t)) :
    ((r.is_valid_address, r.is_smart_wallet, r.is_smart_contract)
        = (false, false, false)
      ∨ (r.is_valid_address, r.is_smart_wallet, r.is_smart_contract)
        = (true, true, false)
      ∨ (r.is_valid_address, r.is_smart_wallet, r.is_smart_contract)
        = (true, false, true))
    ∧ r.message ≠ neitherMsg := by
  by_cases hv : (is_valid_starknet_address addr).1 = false
  · simp only [check_address, hv, if_true, Prod.mk.injEq, Except.ok.injEq] at hok
    obtain ⟨rfl, rfl⟩ := hok
    exact ⟨Or.inl rfl, by decide⟩
  · rcases hgp : get_provider env opts with e | u
    · simp [check_address, hv, hgp] at hok
    · rcases hpa : parse_address addr with e | fe
      · simp [check_address, hv, hgp, hpa] at hok
      · rcases hr1 : (retriedClassHash env fe).1 with e | h
        · simp [check_address, hv, hgp, hpa, hr1] at hok
        · by_cases hz : h = 0
          · subst hz
            simp only [check_address, hv, hgp, hpa, hr1, if_false, Bool.false_eq_true,
              if_true, Prod.mk.injEq, Except.ok.injEq, reduceIte] at hok
            obtain ⟨rfl, rfl⟩ := hok
            exact ⟨Or.inl rfl, by decide⟩
          · rcases hsw : is_smart_wallet env sel addr opts with ⟨e | w, wt⟩
            · simp [check_address, hv, hgp, hpa, hr1, hz, hsw] at hok
            · cases w
              · simp only [check_address, is_smart_contract, hv, hgp, hpa, hr1, hz, hsw,
                  if_false, Bool.false_eq_true, Bool.not_false, reduceIte, Prod.mk.injEq,
                  Except.ok.injEq] at hok
                obtain ⟨rfl, rfl⟩ := hok
                exact ⟨Or.inr (Or.inr rfl), by decide⟩
              · simp only [check_address, hv, hgp, hpa, hr1, hz, hsw, if_false,
                  Bool.false_eq_true, reduceIte, Prod.mk.injEq, Except.ok.injEq] at hok
                obtain ⟨rfl, rfl⟩ := hok
                exact ⟨Or.inr (Or.inl rfl), by decide⟩

/-- Witness for claim C7 at a concrete deterministic wallet run. -/
theorem classification_triple_invariant_witness :
    ((respWallet.is_valid_address, respWallet.is_smart_wallet, respWallet.is_smart_contract)
        = (false, false, false)
      ∨ (respWallet.is_valid_address, respWallet.is_smart_wallet, respWallet.is_smart_contract)
        = (true, true, false)
      ∨ (respWallet.is_valid_address, respWallet.is_smart_wallet, respWallet.is_smart_contract)
        = (true, false, true))
    ∧ respWallet.message ≠ neitherMsg :=
  classification_triple_invariant envWallet selSeven addrOne optsSome respWallet
    [Ev.provider, Ev.classHash 1, Ev.provider, Ev.classHash 1, Ev.getCls 5]
    (fun _ _ => rfl) (fun _ _ => rfl) (by rfl)

/-- Counterexample to claim C8 as stated: with a present, parsable endpoint
and a node that never fails, `check_address` on the syntactically valid
address of 64 `f` digits still returns an Err, because the address value is
at or above the Stark prime and `parse_address` rejects it — a third error
source the claim does not list. -/
theorem err_paths_counterexample :
    (check_address envWallet selSeven addrMax optsSome).1
      = Except.error ("Invalid address format")
    ∧ (is_valid_starknet_address addrMax).1 = true
    ∧ envWallet.urlParses ("http://node") = true
    ∧ envWallet.node.classHashAt 0 0 = Except.ok 5
    ∧ optsSome.rpc_url = some ("http://node") :=
  ⟨rfl, rfl, rfl, rfl, rfl⟩

/-- Amended claim C8: `check_address` returns an Err exactly when the
address passes validation and either the endpoint is absent, the endpoint
does not parse as a URL, the validated address fails field-element parsing,
or one of the two remote fetches fails on all 4 attempts of its own retry
budget; every other run returns Ok with a full record (an `Except` result
is never partial). -/
theorem error_characterization (env : Env) (sel : String → Felt)
    (addr : List Char) (opts : CheckRpcUrl) :
    isErr (check_address env sel addr opts).1 = true ↔
      ((is_valid_starknet_address addr).1 = true ∧
        (opts.rpc_url = none
          ∨ (∃ u, opts.rpc_url = some u ∧ env.urlParses u = false)
          ∨ isErr (parse_address addr) = true
          ∨ (∃ fe, parse_address addr = Except.ok fe ∧
              (classHashExhausted env fe = true
                ∨ ∃ h, (retriedClassHash env fe).1 = Except.ok h ∧ h ≠ 0
                    ∧ getClassExhausted env h = true)))) := by
  by_cases hv : (is_valid_starknet_address addr).1 = false
  · simp [check_address, hv, isErr]
  · have hv' : (is_valid_starknet_address addr).1 = true := by
      cases hval : (is_valid_starknet_address addr).1
      · exact absurd hval hv
      · rfl
    rcases ho : opts.rpc_url with _ | u
    · have hgp : get_provider env opts = Except.error ("Missing node URL") := by
        simp [get_provider, ho]
      simp [check_address, hv', hgp, isErr, ho]
    · by_cases hu : env.urlParses u = true
      · have hgp : get_provider env opts = Except.ok () := by simp [get_provider, ho, hu]
        rcases hpa : parse_address addr with e | fe
        · simp [check_address, hv', hgp, hpa, isErr, ho, hu]
        · rcases hr1 : (retriedClassHash env fe).1 with e | h
          · have hex : classHashExhausted env fe = true := by
              have h1 : isErr (retriedClassHash env fe).1 = true := by rw [hr1]; rfl
              exact (retry3_error_iff (fun i => env.node.classHashAt i fe)).mp h1
            simp [check_address, hv', hgp, hpa, hr1, isErr, ho, hu, hex]
          · have hnex : classHashExhausted env fe = false := by
              cases hc : classHashExhausted env fe
              · rfl
              · have h2 : isErr (retriedClassHash env fe).1 = true :=
                  (retry3_error_iff (fun i => env.node.classHashAt i fe)).mpr hc
                rw [hr1] at h2
                exact absurd h2 (by simp [isErr])
            by_cases hz : h = 0
            · subst hz
              simp [check_address, hv', hgp, hpa, hr1, isErr, ho, hu, hnex]
            · rcases hr2 : (retriedGetClass env h).1 with e2 | cc
              · have hex2 : getClassExhausted env h = true := by
                  have h1 : isErr (retriedGetClass env h).1 = true := by rw [hr2]; rfl
                  exact (retry3_error_iff (fun i => env.node.getClass i h)).mp h1
                simp [check_address, is_smart_wallet, hv', hgp, hpa, hr1, hz, hr2,
                  isErr, ho, hu, hnex, hex2]
              · have hnex2 : getClassExhausted env h = false := by
                  cases hc : getClassExhausted env h
                  · rfl
                  · have h2 : isErr (retriedGetClass env h).1 = true :=
                      (retry3_error_iff (fun i => env.node.getClass i h)).mpr hc
                    rw [hr2] at h2
                    exact absurd h2 (by simp [isErr])
                cases hw : has_required_selectors sel cc
                · simp [check_address, is_smart_wallet, is_smart_contract, hv', hgp,
                    hpa, hr1, hz, hr2, isErr, ho, hu, hnex, hnex2, hw]
                · simp [check_address, is_smart_wallet, is_smart_contract, hv', hgp,
                    hpa, hr1, hz, hr2, isErr, ho, hu, hnex, hnex2, hw]
      · have hu' : env.urlParses u = false := by
          cases hc : env.urlParses u
          · rfl
          · exact absurd hc hu
        have hgp : get_provider env opts = Except.error ("Invalid URL") := by
          simp [get_provider, ho, hu']
        simp [check_address, hv', hgp, isErr, ho, hu']

end StarknetAddressChecker
